import Mathlib

/-!
Shallow embedding of `src/mkv-strip.py` (cricalix/mkv-audio-strip).

The script batch-processes `.mkv` files in a directory: it identifies each
file with an external `mkvmerge` invocation, parses the textual output into
audio/subtitle track inventories, filters files by track counts, builds
remux command arguments for the requested languages, runs the remux, and
commits the result with a two-step rename (original -> `old`-prefixed
backup, then temp output -> original path).

External effects (subprocess invocations, renames, logging, printing) are
modelled as an ordered trace of `Op` values; the external tools are
parameters (`exec : List String -> Int x String` giving each subprocess
invocation's exit code and stdout). An uncaught Python exception is an
`Except.error` (the kinds are the ones the source can actually raise).
-/

/-- Kinds of uncaught Python exceptions the script can raise. -/
inductive PyErr where
  /-- an explicit `raise Exception(...)` (lines 70 and 230) -/
  | exceptionRaised
  /-- CPython `RuntimeError: dictionary changed size during iteration` -/
  | runtimeErr
  /-- reference to an undefined global name -/
  | nameErr
  /-- reference to a local variable before assignment -/
  | unboundLocalErr
  /-- `os.listdir` failure (directory unreadable) -/
  | osErr
  deriving DecidableEq

/-- Observable effects of the script, in program order. -/
inductive Op where
  /-- a `logger.critical(msg)` call with the fully formatted message -/
  | log (msg : String)
  /-- a `print(msg)` call -/
  | consoleOut (msg : String)
  /-- a `subprocess.Popen(cmd)` invocation -/
  | popen (cmd : List String)
  /-- an `os.rename(src, dst)` call -/
  | rename (src : String) (dst : String)
  deriving DecidableEq

/-- Python `needle in hay` for strings: substring test. -/
def isSubstr (needle hay : String) : Bool :=
  hay.toList.tails.any (fun t => needle.toList.isPrefixOf t)

/-- Python truthiness of an optional-string value (`None` and `""` are falsy);
argparse leaves an unsupplied option as `None`. -/
def truthyStr : Option String → Bool
  | none => false
  | some s => !(s == "")

/-- Python `str()` / f-string rendering of an optional string (`None` prints as "None"). -/
def pyStr : Option String → String
  | none => "None"
  | some s => s

/-- The `MKVMERGE` constant (line 47). -/
def MKVMERGE : String := "C:/Program Files/MKVtoolnix/mkvmerge.exe"

/-- Does the string start with a path separator? -/
def headIsSlash (s : String) : Bool :=
  match s.toList with
  | '/' :: _ => true
  | _ => false

/-- Does the string end with a path separator? -/
def lastIsSlash (s : String) : Bool :=
  match s.toList.getLast? with
  | some '/' => true
  | _ => false

/-- posixpath `os.path.join` for two components. -/
def osPathJoin (a b : String) : String :=
  if headIsSlash b then b
  else if a == "" || lastIsSlash a then a ++ b
  else a ++ "/" ++ b

/-- Drop an exact literal prefix, returning the remainder (regex literal matching). -/
def dropLit : List Char → List Char → Option (List Char)
  | [], rest => some rest
  | _ :: _, [] => none
  | c :: cs, d :: ds => if c == d then dropLit cs ds else none

/-- Does the text begin with `language:` followed by three `[a-z]` characters?
If so, return the three-character capture. -/
def langCaptureAt : List Char → Option (List Char)
  | 'l' :: 'a' :: 'n' :: 'g' :: 'u' :: 'a' :: 'g' :: 'e' :: ':' :: a :: b :: c :: _ =>
      if a.isLower && b.isLower && c.isLower then some [a, b, c] else none
  | _ => none

/-- Semantics of the greedy regex tail `.*language:([a-z]\x7b3\x7d)` on text with
no newline: the rightmost position where `language:` plus three lowercase
letters matches wins (greedy `.*` backtracks from the right). -/
def scanLang : List Char → Option (List Char)
  | [] => none
  | c :: rest =>
    match scanLang rest with
    | some l => some l
    | none => langCaptureAt (c :: rest)

/-- Semantics of `re.match` for the track patterns (lines 49-50):
`Track ID (\d+): <kind> .*language:([a-z]\x7b3\x7d)` anchored at the start of
the line; `kind` is `audio` or `subtitles`. Returns the two captures. -/
def matchTrackLine (kind : String) (line : List Char) : Option (String × String) :=
  match dropLit ("Track ID ".toList) line with
  | none => none
  | some r1 =>
    match r1.takeWhile Char.isDigit with
    | [] => none
    | ds =>
      match dropLit ((": " ++ kind ++ " ").toList) (r1.dropWhile Char.isDigit) with
      | none => none
      | some r2 => (scanLang r2).map (fun l => (String.mk ds, String.mk l))

/-- Split text at newline characters. `StringIO` iteration yields lines with
their trailing newline kept; since neither `.` nor `[a-z]` matches a newline
and the patterns are not end-anchored, matching each newline-free piece is
equivalent. (A trailing final empty piece matches neither pattern.) -/
def splitLines : List Char → List (List Char)
  | [] => [[]]
  | c :: rest =>
    if c == '\n' then [] :: splitLines rest
    else
      match splitLines rest with
      | [] => [[c]]
      | l :: ls => (c :: l) :: ls

/-- One line of the `_extract_tracks` scan: an `AUDIO_RE` match appends its
captures to the audio list, otherwise a `SUBTITLE_RE` match appends to the
subtitle list, otherwise the line contributes nothing. -/
def extractStep (acc : List (String × String) × List (String × String)) (line : List Char) :
    List (String × String) × List (String × String) :=
  match matchTrackLine "audio" line with
  | some g => (acc.1 ++ [g], acc.2)
  | none =>
    match matchTrackLine "subtitles" line with
    | some g => (acc.1, acc.2 ++ [g])
    | none => acc

/-- Embeds `_extract_tracks` (lines 74-91). NOTE (faithful to the source): the
loop iterates `StringIO(content)` where `content` is the module-level global
set by the main loop, not the `mkvmerge_output` parameter; the parameters
`mkvmerge_output` and `filename` (beyond log attribution) are unused. -/
def _extract_tracks (content : String) (mkvmerge_output : String) (filename : String) :
    List (String × String) × List (String × String) :=
  (splitLines content.toList).foldl extractStep ([], [])

/-- Embeds the `MKVFile` record class (lines 168-183): regex captures are kept
as strings, exactly as the source stores them. -/
structure MKVFile where
  root : String
  filename : String
  audio : List (String × String)
  subtitle : List (String × String)
  audio_args : List String := []
  subtitle_args : List String := []
  deriving DecidableEq

/-- The argparse configuration surface (lines 19-41). -/
structure Args where
  input_directory : String
  audio_language : Option String := none
  subtitle_language : Option String := none
  list_tracks : Bool := false
  deriving DecidableEq

/-- Comma-join of the kept track ids: `",".join([str(a[0]) for a in filterlang])`. -/
def commaJoin (l : List String) : String := String.intercalate "," l

/-- The `--default-track` argument pairs of lines 158-160: for index `i`,
`":".join([filterlang[i][0], "0" if i else "1"])`. -/
def defaultTrackArgs (filterlang : List (String × String)) : List String :=
  filterlang.enum.flatMap
    (fun p => ["--default-track", p.2.1 ++ ":" ++ (if p.1 == 0 then "1" else "0")])

/-- Embeds one iteration of the loop body of `_build_args` (lines 131-165) on
record `rec`. Faithful points:
the guards at 135 and 138 are substring tests `'audio' in langtype` and
`'language' in langtype`, so for `langtype = "subtitle"` neither holds, the
locals `lang`/`field` are never assigned and line 142 raises
UnboundLocalError; the no-match log f-string at 144-147 interpolates the
module-level `path`, which is first assigned at line 218 — after both
`_build_args` calls — so `path_global` is `none` at the real call sites and
that branch raises NameError; lines 161-164 guard *both* the `audio_args`
and the `subtitle_args` assignment by `'audio' in langtype`. -/
def build_args_step (args : Args) (path_global : Option String) (langtype : String)
    (rec : MKVFile) : List Op × Except PyErr MKVFile :=
  let log1 : List Op :=
    [Op.log ("[" ++ rec.filename ++ "] Building CLI arguments for " ++ langtype ++ " tracks")]
  let lf0 : Option (Option String × List (String × String)) :=
    if isSubstr "audio" langtype then some (args.audio_language, rec.audio) else none
  let lf : Option (Option String × List (String × String)) :=
    if isSubstr "language" langtype then some (args.audio_language, rec.audio) else lf0
  match lf with
  | none => (log1, Except.error PyErr.unboundLocalErr)
  | some (lang, field) =>
    let filterlang := field.filter (fun a => some a.2 == lang)
    if truthyStr lang && filterlang.length == 0 then
      match path_global with
      | none => (log1, Except.error PyErr.nameErr)
      | some path =>
        (log1 ++ [Op.log ("[" ++ rec.filename ++ "] No " ++ langtype ++
            " tracks with language " ++ pyStr lang ++ " in " ++ path)],
         Except.ok rec)
    else if filterlang.length > 1 then
      (log1 ++ [Op.log ("[" ++ rec.filename ++ "] More than one " ++ langtype ++
          " track matching " ++ pyStr lang ++ ". Skipping")],
       Except.ok rec)
    else
      let cmd : List String :=
        if filterlang.length != 0 then
          ["--" ++ langtype ++ "-tracks", commaJoin (filterlang.map (fun a => a.1))]
            ++ defaultTrackArgs filterlang
        else []
      let rec2 :=
        if isSubstr "audio" langtype then
          { rec with audio_args := cmd, subtitle_args := cmd }
        else rec
      (log1, Except.ok rec2)

/-- Embeds `_build_args` (lines 127-165) over the global `file_to_tracks` dict
(association list in insertion order; `file_to_tracks[key] = rec` updates the
current key in place, which is legal during iteration). An exception in an
iteration propagates, abandoning the rest of the dict. -/
def _build_args (args : Args) (path_global : Option String) (langtype : String) :
    List (String × MKVFile) → List Op × Except PyErr (List (String × MKVFile))
  | [] => ([], Except.ok [])
  | (key, rec) :: rest =>
    match build_args_step args path_global langtype rec with
    | (ops, Except.error e) => (ops, Except.error e)
    | (ops, Except.ok rec2) =>
      match _build_args args path_global langtype rest with
      | (ops2, Except.error e) => (ops ++ ops2, Except.error e)
      | (ops2, Except.ok rest2) => (ops ++ ops2, Except.ok ((key, rec2) :: rest2))

/-- Shared scan of `_audio_check`/`_subtitle_check`: the source deletes dict
entries while iterating `dict.items()`; in CPython the next iterator step
after a deletion raises `RuntimeError: dictionary changed size during
iteration` (even when the deleted entry was the last), so the scan aborts at
the first record `tooFew` holds for, after logging `msg` for it; entries
after it are never examined. -/
def checkScan (msg : String) (tooFew : MKVFile → Bool) :
    List (String × MKVFile) → List Op × Except PyErr Unit
  | [] => ([], Except.ok ())
  | (_, rec) :: rest =>
    if tooFew rec then
      ([Op.log ("[" ++ rec.filename ++ "] " ++ msg)], Except.error PyErr.runtimeErr)
    else checkScan msg tooFew rest

/-- Embeds `_audio_check` (lines 107-114): intends to drop records with fewer
than 2 audio tracks but mutates the dict during iteration (see `checkScan`);
when no record is dropped it returns the dict unchanged. -/
def _audio_check (file_tracks : List (String × MKVFile)) :
    List Op × Except PyErr (List (String × MKVFile)) :=
  match checkScan "At least 1 audio track required" (fun rec => rec.audio.length < 2) file_tracks with
  | (ops, Except.error e) => (ops, Except.error e)
  | (ops, Except.ok _) => (ops, Except.ok file_tracks)

/-- Embeds `_subtitle_check` (lines 117-124): same shape as `_audio_check`
over the subtitle track count. -/
def _subtitle_check (file_tracks : List (String × MKVFile)) :
    List Op × Except PyErr (List (String × MKVFile)) :=
  match checkScan "At least 1 subtitle track required" (fun rec => rec.subtitle.length < 2) file_tracks with
  | (ops, Except.error e) => (ops, Except.error e)
  | (ops, Except.ok _) => (ops, Except.ok file_tracks)

/-- The original path `join(rec.root, rec.filename)` of line 218. -/
def origPath (rec : MKVFile) : String := osPathJoin rec.root rec.filename

/-- The backup path `join(rec.root, 'old' + rec.filename)` of lines 219/234. -/
def backupPath (rec : MKVFile) : String := osPathJoin rec.root ("old" ++ rec.filename)

/-- The remux command of lines 220-223:
`[MKVMERGE, "-o", path + ".temp"] + audio_args + subtitle_args + [path]`. -/
def remuxCmd (rec : MKVFile) : List String :=
  [MKVMERGE, "-o", origPath rec ++ ".temp"] ++ rec.audio_args ++ rec.subtitle_args ++ [origPath rec]

/-- Embeds one iteration of the final processing loop (lines 213-235): skip
when both keep-arg lists are empty (Python falsiness of the empty list);
otherwise invoke the remux, raise on non-zero exit, and on success rename the
original aside to the backup and then the temp output onto the original. -/
def process_file (exec : List String → Int × String) (rec : MKVFile) :
    List Op × Option PyErr :=
  if rec.audio_args.isEmpty && rec.subtitle_args.isEmpty then
    ([Op.log ("[" ++ rec.filename ++ "] No work to be done")], none)
  else
    let cmd := remuxCmd rec
    let ops0 := [Op.log ("[" ++ rec.filename ++ "] Processing ..."), Op.popen cmd]
    if (exec cmd).1 != 0 then
      (ops0 ++ [Op.log ("Failed")], some PyErr.exceptionRaised)
    else
      (ops0 ++ [Op.log ("Success"),
        Op.rename (origPath rec) (backupPath rec),
        Op.rename (origPath rec ++ ".temp") (origPath rec)], none)

/-- The processing loop over the whole dict (lines 213-235); an exception in
one iteration propagates and aborts the remaining files. -/
def process_all (exec : List String → Int × String) :
    List (String × MKVFile) → List Op × Option PyErr
  | [] => ([], none)
  | (_, rec) :: rest =>
    match process_file exec rec with
    | (ops, some e) => (ops, some e)
    | (ops, none) =>
      match process_all exec rest with
      | (ops2, r) => (ops ++ ops2, r)

/-- Embeds `_mkvmerge_identify` (lines 61-71): runs the identify command and
returns its stdout; a non-zero exit status logs and raises `Exception`. -/
def _mkvmerge_identify (exec : List String → Int × String) (root filename : String) :
    List Op × Except PyErr String :=
  let cmd := [MKVMERGE, "--identify-verbose", osPathJoin root filename]
  let r := exec cmd
  if r.1 != 0 then
    ([Op.log ("[" ++ filename ++ "] Identifying"), Op.popen cmd,
      Op.log ("[" ++ filename ++ "] mkvmerge failed to identify the file")],
     Except.error PyErr.exceptionRaised)
  else
    ([Op.log ("[" ++ filename ++ "] Identifying"), Op.popen cmd], Except.ok r.2)

/-- Python dict assignment `d[k] = v` on an insertion-ordered association
list: replace the value of an existing key in place, else append. -/
def dictSet (d : List (String × MKVFile)) (k : String) (v : MKVFile) :
    List (String × MKVFile) :=
  if d.any (fun p => p.1 == k) then d.map (fun p => if p.1 == k then (k, v) else p)
  else d ++ [(k, v)]

/-- The two log lines of `_extract_tracks` (lines 75 and 87-90). -/
def extractLogOps (filename : String)
    (ts : List (String × String) × List (String × String)) : List Op :=
  [Op.log ("[" ++ filename ++ "] Extracting tracks"),
   Op.log ("[" ++ filename ++ "] Found " ++ toString ts.1.length ++ " audio and " ++
     toString ts.2.length ++ " subtitle tracks")]

/-- Embeds the module-level loop at lines 186-196 that fills `file_to_tracks`:
per file, identify (an identify failure raises, aborting the whole run with
the remaining files unvisited), set the global `content`, extract tracks from
it, and store an `MKVFile` under the key `md5(filename).hexdigest()`.
`md5hex` models the hashlib digest, kept opaque. Note the global `content`
passed to `_extract_tracks` equals the output just produced for this file. -/
def inventoryLoop (exec : List String → Int × String) (md5hex : String → String)
    (root : String) : List String → List (String × MKVFile) →
    List Op × Except PyErr (List (String × MKVFile))
  | [], acc => ([], Except.ok acc)
  | f :: rest, acc =>
    match _mkvmerge_identify exec root f with
    | (ops, Except.error e) => (ops, Except.error e)
    | (ops, Except.ok content) =>
      let ts := _extract_tracks content content f
      let acc2 := dictSet acc (md5hex f)
        { root := root, filename := f, audio := ts.1, subtitle := ts.2 }
      match inventoryLoop exec md5hex root rest acc2 with
      | (ops2, r) => (ops ++ extractLogOps f ts ++ ops2, r)

/-- Embeds `_list_tracks` (lines 94-104): prints the literal string
`f\x7brec.filename\x7d` (the `f` sits inside the quotes in the source, so no
interpolation happens), an ` Audio tracks` header, each audio then each
subtitle track as `  <id> is <lang>` (subtitle tracks also fall under the
audio header), and a blank line. -/
def list_tracks_ops (file_tracks : List (String × MKVFile)) : List Op :=
  file_tracks.flatMap (fun p =>
    [Op.consoleOut ("f\x7brec.filename\x7d"), Op.consoleOut (" Audio tracks")]
    ++ (if !p.2.audio.isEmpty then
          p.2.audio.map (fun t => Op.consoleOut ("  " ++ t.1 ++ " is " ++ t.2))
        else [])
    ++ (if !p.2.subtitle.isEmpty then
          p.2.subtitle.map (fun t => Op.consoleOut ("  " ++ t.1 ++ " is " ++ t.2))
        else [])
    ++ [Op.consoleOut ("")])

/-- Embeds the module-level program, lines 186-235 plus the initial listing of
line 53-58 (the `listing` parameter is the directory-listing collaborator;
its failure is an OSError that aborts the run before anything else happens).
The later phases follow the source order: fill `file_to_tracks`; if
`--list-tracks`, dump them; if an audio (resp. subtitle) language was given,
run `_audio_check` (resp. `_subtitle_check`) and then `_build_args` for that
type; finally the process loop. The module-level `path` is still unassigned
when `_build_args` runs, hence `none`. An `Except.error` outcome is an
uncaught exception aborting the run at that point. -/
def main_run (args : Args) (md5hex : String → String)
    (exec : List String → Int × String) (listing : Except PyErr (List String)) :
    List Op × Except PyErr Unit :=
  let l0 := [Op.log ("Processing " ++ args.input_directory)]
  match listing with
  | Except.error e => (l0, Except.error e)
  | Except.ok files =>
    match inventoryLoop exec md5hex args.input_directory files [] with
    | (ops1, Except.error e) => (l0 ++ ops1, Except.error e)
    | (ops1, Except.ok ft0) =>
      let lops := if args.list_tracks then list_tracks_ops ft0 else []
      match (if truthyStr args.audio_language then _audio_check ft0
             else ([], Except.ok ft0)) with
      | (ops2, Except.error e) => (l0 ++ ops1 ++ lops ++ ops2, Except.error e)
      | (ops2, Except.ok ft1) =>
        match (if truthyStr args.subtitle_language then _subtitle_check ft1
               else ([], Except.ok ft1)) with
        | (ops3, Except.error e) => (l0 ++ ops1 ++ lops ++ ops2 ++ ops3, Except.error e)
        | (ops3, Except.ok ft2) =>
          match (if truthyStr args.audio_language then _build_args args none "audio" ft2
                 else ([], Except.ok ft2)) with
          | (ops4, Except.error e) =>
            (l0 ++ ops1 ++ lops ++ ops2 ++ ops3 ++ ops4, Except.error e)
          | (ops4, Except.ok ft3) =>
            match (if truthyStr args.subtitle_language then _build_args args none "subtitle" ft3
                   else ([], Except.ok ft3)) with
            | (ops5, Except.error e) =>
              (l0 ++ ops1 ++ lops ++ ops2 ++ ops3 ++ ops4 ++ ops5, Except.error e)
            | (ops5, Except.ok ft4) =>
              match process_all exec ft4 with
              | (ops6, some e) =>
                (l0 ++ ops1 ++ lops ++ ops2 ++ ops3 ++ ops4 ++ ops5 ++ ops6, Except.error e)
              | (ops6, none) =>
                (l0 ++ ops1 ++ lops ++ ops2 ++ ops3 ++ ops4 ++ ops5 ++ ops6, Except.ok ())

/-- A flat filesystem: path to content (contents abstracted as naturals). -/
def FS : Type := String → Option Nat

/-- POSIX `os.rename` semantics when the source exists: the destination takes
the source's content (atomically replacing any previous destination), the
source ceases to exist, everything else is untouched. -/
def osRename (fs : FS) (src dst : String) : FS :=
  fun p => if p = dst then fs src else if p = src then none else fs p

/-- Effect of one traced operation on the filesystem (only renames touch it). -/
def applyOp (fs : FS) : Op → FS
  | Op.rename src dst => osRename fs src dst
  | _ => fs

/-- Effect of a whole trace on the filesystem, in order. -/
def applyOps (fs : FS) (ops : List Op) : FS := ops.foldl applyOp fs

/-- Is an operation a rename? -/
def isRenameOp : Op → Bool
  | Op.rename _ _ => true
  | _ => false

/-- Is an operation a subprocess invocation? -/
def isPopenOp : Op → Bool
  | Op.popen _ => true
  | _ => false

/-- A concrete CLI configuration: both languages requested. -/
def argsEx : Args :=
  { input_directory := "d", audio_language := some "eng", subtitle_language := some "fre" }

/-- A concrete eligible file record: two audio and two subtitle tracks, with a
unique audio track in `eng` and a unique subtitle track in `fre`. -/
def recEx : MKVFile :=
  { root := "d", filename := "a.mkv",
    audio := [("0", "eng"), ("1", "jpn")],
    subtitle := [("2", "eng"), ("3", "fre")] }

/-- The keep-arguments the audio pass of `_build_args` produces for `recEx`. -/
def remuxArgsEx : List String := ["--audio-tracks", "0", "--default-track", "0:1"]

/-- `recEx` after the audio `_build_args` pass (both argument fields are set by
the `'audio' in langtype` guards of lines 161-164). -/
def recWorkEx : MKVFile := { recEx with audio_args := remuxArgsEx, subtitle_args := remuxArgsEx }

/-- A concrete filesystem: the original holds content 0, the temp output holds
content 1, nothing else exists. -/
def fsEx : FS :=
  fun p => if p = "d/a.mkv" then some 0 else if p = "d/a.mkv.temp" then some 1 else none

/-- An external-tool behavior where identifying `d/f1.mkv` fails (exit 1) and
every other invocation succeeds with empty output. -/
def execIdFail : List String → Int × String :=
  fun cmd => if cmd == [MKVMERGE, "--identify-verbose", "d/f1.mkv"] then (1, "boom") else (0, "")

/-- No string equals itself with `".temp"` appended (their lengths differ). -/
theorem string_ne_append_temp (s : String) : s ≠ s ++ ".temp" := by
  intro h
  have h2 := congrArg String.length h
  rw [String.length_append] at h2
  have h3 : (".temp" : String).length = 5 := rfl
  omega

/-- Claim C1 (code bug): the claim says the subtitle pass of the argument
builder filters the file's subtitle tracks by the requested subtitle language
and stores the result as the subtitle keep-args. On the code it fails twice
over: `_build_args("subtitle")` raises UnboundLocalError before any filtering
(neither `'audio' in langtype` nor `'language' in langtype` holds for
`"subtitle"`, so `lang`/`field` are unbound), and the audio pass stores the
audio-derived command into `subtitle_args` as well (both assignments at lines
161-164 are guarded by `'audio' in langtype`). -/
theorem c1_subtitle_args_bug :
    build_args_step argsEx none "subtitle" recEx =
      ([Op.log ("[a.mkv] Building CLI arguments for subtitle tracks")],
       Except.error PyErr.unboundLocalErr)
    ∧ (build_args_step argsEx none "audio" recEx).2 =
      Except.ok { recEx with audio_args := remuxArgsEx, subtitle_args := remuxArgsEx }
    ∧ (∀ (a : Args) (p : Option String) (rec : MKVFile),
        (build_args_step a p "subtitle" rec).2 = Except.error PyErr.unboundLocalErr) := by
  exact ⟨rfl, rfl, fun a p rec => rfl⟩

/-- Claim C3 (code bug): the claim says the eligibility checks return the
collection with exactly the under-2-track files removed. On the code, any
record with fewer than 2 audio (resp. subtitle) tracks makes `_audio_check`
(resp. `_subtitle_check`) raise RuntimeError — the dict is mutated during
iteration — instead of returning a filtered collection; only when nothing
needs removing is the collection returned, and then it is unchanged. -/
theorem c3_check_crashes_instead_of_filtering :
    _audio_check [("k", { recEx with audio := [("0", "eng")] })] =
      ([Op.log ("[a.mkv] At least 1 audio track required")], Except.error PyErr.runtimeErr)
    ∧ _audio_check [("k", recEx)] = ([], Except.ok [("k", recEx)])
    ∧ _audio_check [("k", recEx), ("k2", { recEx with audio := [("0", "eng")] })] =
      ([Op.log ("[a.mkv] At least 1 audio track required")], Except.error PyErr.runtimeErr)
    ∧ _subtitle_check [("k", { recEx with subtitle := [("2", "eng")] })] =
      ([Op.log ("[a.mkv] At least 1 subtitle track required")], Except.error PyErr.runtimeErr) := by
  exact ⟨rfl, rfl, rfl, rfl⟩

/-- Claim C4 (code bug): the claim says zero matches give NoMatch (reported,
type skipped, file unaffected, processing continues) and several matches give
Ambiguous (reported and skipped). On the code the Ambiguous half does hold
for the audio type (second conjunct: the record comes back unchanged, keep
args empty, after the "More than one ... Skipping" log), but the zero-match
branch raises NameError — its log f-string interpolates the module-level
`path`, unassigned until line 218 — and for the subtitle type the builder
raises UnboundLocalError before even counting matches. -/
theorem c4_nomatch_crashes_ambiguous_skips :
    build_args_step argsEx none "audio" { recEx with audio := [("0", "jpn"), ("1", "fre")] } =
      ([Op.log ("[a.mkv] Building CLI arguments for audio tracks")], Except.error PyErr.nameErr)
    ∧ build_args_step argsEx none "audio" { recEx with audio := [("0", "eng"), ("1", "eng")] } =
      ([Op.log ("[a.mkv] Building CLI arguments for audio tracks"),
        Op.log ("[a.mkv] More than one audio track matching eng. Skipping")],
       Except.ok { recEx with audio := [("0", "eng"), ("1", "eng")] })
    ∧ build_args_step argsEx none "subtitle" { recEx with subtitle := [("2", "jpn"), ("3", "ger")] } =
      ([Op.log ("[a.mkv] Building CLI arguments for subtitle tracks")],
       Except.error PyErr.unboundLocalErr) := by
  exact ⟨rfl, rfl, rfl⟩

/-- Claim C5 (code bug): the claim says a unique track of the requested type
matching the requested language is selected and marked default with priority
1 (a track-list argument naming its id, then a default-track argument
`id:1`). On the code this holds for the audio type (first conjunct: unique
`eng` match on id 5 produces `--audio-tracks 5 --default-track 5:1`, though
it is also stored into `subtitle_args`), but for the subtitle type the
builder raises UnboundLocalError instead of selecting the unique `spa` match
(id 7) and producing `--subtitle-tracks 7 --default-track 7:1`. -/
theorem c5_unique_match_selected_default :
    (build_args_step
        { input_directory := "e", audio_language := some "eng", subtitle_language := some "spa" }
        none "audio"
        { root := "e", filename := "b.mkv", audio := [("4", "jpn"), ("5", "eng")],
          subtitle := [("6", "eng"), ("7", "spa")] }).2 =
      Except.ok
        { root := "e", filename := "b.mkv", audio := [("4", "jpn"), ("5", "eng")],
          subtitle := [("6", "eng"), ("7", "spa")],
          audio_args := ["--audio-tracks", "5", "--default-track", "5:1"],
          subtitle_args := ["--audio-tracks", "5", "--default-track", "5:1"] }
    ∧ (build_args_step
        { input_directory := "e", audio_language := some "eng", subtitle_language := some "spa" }
        none "subtitle"
        { root := "e", filename := "b.mkv", audio := [("4", "jpn"), ("5", "eng")],
          subtitle := [("6", "eng"), ("7", "spa")] }).2 =
      Except.error PyErr.unboundLocalErr := by
  exact ⟨rfl, rfl⟩

/-- Claim C8 (code bug): the claim says the parser is a pure function of the
identification output text *it is given*. The embedded `_extract_tracks` is
deterministic and ignores everything but the module-level `content` (first
conjunct: its result is independent of the `mkvmerge_output` and `filename`
arguments — which also makes parsing twice trivially idempotent), so with the
global empty the given text `Track ID 0: audio language:eng` yields an empty
inventory, while the same text in the global position parses to an audio
track — the result does not depend on the text the function is given. The
last conjunct exercises the line patterns: ignored junk lines, greedy capture
of the last `language:` occurrence, and a subtitle line. -/
theorem c8_parser_reads_global_not_argument :
    (∀ (c x y f g : String), _extract_tracks c x f = _extract_tracks c y g)
    ∧ _extract_tracks ("") ("Track ID 0: audio language:eng") ("f") = ([], [])
    ∧ _extract_tracks ("Track ID 0: audio language:eng") ("") ("f") = ([("0", "eng")], [])
    ∧ _extract_tracks
        ("junk\nTrack ID 12: audio (AC-3) language:und language:jpn\nTrack ID 3: subtitles (S_TEXT/UTF8) language:fre\n")
        ("") ("f") = ([("12", "jpn")], [("3", "fre")]) := by
  exact ⟨fun c x y f g => rfl, rfl, rfl, rfl⟩

/-- Claim C2, counterexample: a batch of two files where identifying the first
fails (exit 1). The claim says only that file is skipped and the orchestrator
continues with the remaining files; on the code the `raise Exception` in
`_mkvmerge_identify` is uncaught, the run aborts, and the second file is
never even identified (no `popen` for it appears in the trace). -/
theorem c2_counterexample :
    (main_run argsEx (fun s => s) execIdFail (Except.ok ["f1.mkv", "f2.mkv"])).2 =
      Except.error PyErr.exceptionRaised
    ∧ ((main_run argsEx (fun s => s) execIdFail (Except.ok ["f1.mkv", "f2.mkv"])).1.all
        (fun op => op != Op.popen [MKVMERGE, "--identify-verbose", "d/f2.mkv"])) = true := by
  exact ⟨rfl, rfl⟩

/-- Claim C2, amended: per-file failures are not caught and recorded — they
abort the whole run, just as a listing failure does. First half: an
identification failure (non-zero exit) for a file makes the `raise
Exception` of `_mkvmerge_identify` propagate out of the module-level loop
(shown for the first file of the batch, whatever follows it). Second half: a
remux failure for a file aborts the processing loop with the raised
exception; the trace stops at that file's Failed log and the remaining
entries are never processed. -/
theorem c2_per_file_failure_aborts_run :
    (∀ (args : Args) (md5hex : String → String) (exec : List String → Int × String)
        (f : String) (rest : List String),
      (exec [MKVMERGE, "--identify-verbose", osPathJoin args.input_directory f]).1 ≠ 0 →
      (main_run args md5hex exec (Except.ok (f :: rest))).2 = Except.error PyErr.exceptionRaised)
    ∧ (∀ (exec : List String → Int × String) (k : String) (rec : MKVFile)
        (rest : List (String × MKVFile)),
      (rec.audio_args.isEmpty && rec.subtitle_args.isEmpty) = false →
      (exec (remuxCmd rec)).1 ≠ 0 →
      process_all exec ((k, rec) :: rest) =
        ([Op.log ("[" ++ rec.filename ++ "] Processing ..."), Op.popen (remuxCmd rec),
          Op.log ("Failed")], some PyErr.exceptionRaised)) := by
  constructor
  · intro args md5hex exec f rest h
    have hb : ((exec [MKVMERGE, "--identify-verbose", osPathJoin args.input_directory f]).1 != 0)
        = true := bne_iff_ne.mpr h
    simp [main_run, inventoryLoop, _mkvmerge_identify, hb]
  · intro exec k rec rest hwork hfail
    have hb : ((exec (remuxCmd rec)).1 != 0) = true := bne_iff_ne.mpr hfail
    simp [process_all, process_file, hwork, hb]

/-- Claim C2, witness for the amended theorem: the concrete two-file batch
whose first identify fails aborts the run, and a concrete two-entry work set
whose first remux fails aborts the processing loop. -/
theorem c2_per_file_failure_aborts_run_witness :
    (main_run argsEx (fun s => s) execIdFail (Except.ok ["f1.mkv", "f2.mkv"])).2 =
      Except.error PyErr.exceptionRaised
    ∧ (process_all (fun _ => ((1 : Int), "")) [("k", recWorkEx), ("k2", recWorkEx)]).2 =
      some PyErr.exceptionRaised := by
  refine ⟨c2_per_file_failure_aborts_run.1 argsEx (fun s => s) execIdFail "f1.mkv" ["f2.mkv"]
    (by decide), ?_⟩
  have h := c2_per_file_failure_aborts_run.2 (fun _ => ((1 : Int), "")) "k" recWorkEx
    [("k2", recWorkEx)] (by decide) (by decide)
  rw [h]

/-- Claim C6 (confirmed): when a file is committed (it had work and the remux
exited 0), the trace is exactly: the Processing log, the remux invocation,
the Success log, then FIRST the rename of the original to the `old`-prefixed
backup in the same directory, and only THEN the rename of the `.temp` output
onto the original path. On any filesystem holding the original and the temp
output, the old content sits at the backup path already after the first
rename (it is never deleted), and after both renames the backup holds the old
content while the original path holds the new content. -/
theorem c6_commit_two_step_order (exec : List String → Int × String) (rec : MKVFile)
    (hwork : (rec.audio_args.isEmpty && rec.subtitle_args.isEmpty) = false)
    (hok : (exec (remuxCmd rec)).1 = 0) :
    process_file exec rec =
      ([Op.log ("[" ++ rec.filename ++ "] Processing ..."), Op.popen (remuxCmd rec),
        Op.log ("Success"),
        Op.rename (origPath rec) (backupPath rec),
        Op.rename (origPath rec ++ ".temp") (origPath rec)], none)
    ∧ backupPath rec = osPathJoin rec.root ("old" ++ rec.filename)
    ∧ ∀ (fs : FS) (oldC newC : Nat),
        fs (origPath rec) = some oldC →
        fs (origPath rec ++ ".temp") = some newC →
        backupPath rec ≠ origPath rec →
        backupPath rec ≠ origPath rec ++ ".temp" →
        (osRename fs (origPath rec) (backupPath rec)) (backupPath rec) = some oldC
        ∧ applyOps fs ((process_file exec rec).1) (origPath rec) = some newC
        ∧ applyOps fs ((process_file exec rec).1) (backupPath rec) = some oldC := by
  have hpt : origPath rec ≠ origPath rec ++ ".temp" := string_ne_append_temp _
  have htrace : process_file exec rec =
      ([Op.log ("[" ++ rec.filename ++ "] Processing ..."), Op.popen (remuxCmd rec),
        Op.log ("Success"),
        Op.rename (origPath rec) (backupPath rec),
        Op.rename (origPath rec ++ ".temp") (origPath rec)], none) := by
    simp [process_file, hwork, hok]
  refine ⟨htrace, rfl, ?_⟩
  intro fs oldC newC h1 h2 hb1 hb2
  rw [htrace]
  refine ⟨?_, ?_, ?_⟩
  · simp [osRename, h1]
  · simp [applyOps, applyOp, osRename, h1, h2, Ne.symm hb2, Ne.symm hpt]
  · simp [applyOps, applyOp, osRename, h1, hb1, hb2]

/-- Claim C6, witness: the commit theorem applied to the concrete worked
record and filesystem (original content 0, temp content 1): afterwards the
backup `d/olda.mkv` holds 0 and `d/a.mkv` holds 1. -/
theorem c6_commit_two_step_order_witness :
    (process_file (fun _ => ((0 : Int), "")) recWorkEx).2 = none
    ∧ applyOps fsEx ((process_file (fun _ => ((0 : Int), "")) recWorkEx).1) ("d/a.mkv") = some 1
    ∧ applyOps fsEx ((process_file (fun _ => ((0 : Int), "")) recWorkEx).1) ("d/olda.mkv") = some 0 := by
  have h := c6_commit_two_step_order (fun _ => ((0 : Int), "")) recWorkEx (by decide) rfl
  have h3 := h.2.2 fsEx 0 1 (by decide) (by decide) (by decide) (by decide)
  exact ⟨by rw [h.1], h3.2.1, h3.2.2⟩

/-- Claim C7 (confirmed): when the remux invocation for a file exits non-zero,
the commit never runs: the trace for that file is exactly the Processing log,
the remux invocation and the Failed log — it contains no rename at all — the
outcome is a raised exception (the job fails), and applying the trace to any
filesystem leaves it unchanged, so the original file at its original path is
untouched. -/
theorem c7_remux_failure_no_commit (exec : List String → Int × String) (rec : MKVFile)
    (hwork : (rec.audio_args.isEmpty && rec.subtitle_args.isEmpty) = false)
    (hfail : (exec (remuxCmd rec)).1 ≠ 0) :
    process_file exec rec =
      ([Op.log ("[" ++ rec.filename ++ "] Processing ..."), Op.popen (remuxCmd rec),
        Op.log ("Failed")], some PyErr.exceptionRaised)
    ∧ ((process_file exec rec).1.all (fun op => !(isRenameOp op))) = true
    ∧ ∀ (fs : FS), applyOps fs ((process_file exec rec).1) = fs := by
  have hb : ((exec (remuxCmd rec)).1 != 0) = true := bne_iff_ne.mpr hfail
  have htrace : process_file exec rec =
      ([Op.log ("[" ++ rec.filename ++ "] Processing ..."), Op.popen (remuxCmd rec),
        Op.log ("Failed")], some PyErr.exceptionRaised) := by
    simp [process_file, hwork, hb]
  refine ⟨htrace, ?_, ?_⟩
  · rw [htrace]
    rfl
  · intro fs
    rw [htrace]
    rfl

/-- Claim C7, witness: concrete remux failure (exit 1) on the worked record;
the job fails and the concrete filesystem still holds the original content at
the original path. -/
theorem c7_remux_failure_no_commit_witness :
    (process_file (fun _ => ((1 : Int), "")) recWorkEx).2 = some PyErr.exceptionRaised
    ∧ applyOps fsEx ((process_file (fun _ => ((1 : Int), "")) recWorkEx).1) ("d/a.mkv") = some 0 := by
  have h := c7_remux_failure_no_commit (fun _ => ((1 : Int), "")) recWorkEx (by decide) (by decide)
  refine ⟨by rw [h.1], ?_⟩
  rw [h.2.2 fsEx]
  decide

/-- Claim C9 (confirmed): a file job whose audio and subtitle keep-args are
both empty is logged as having no work and skipped: its trace is exactly the
No-work log, with no subprocess invocation (so the remux tool is never
called) and no error. -/
theorem c9_no_work_skips_remux (exec : List String → Int × String) (rec : MKVFile)
    (ha : rec.audio_args = []) (hs : rec.subtitle_args = []) :
    process_file exec rec = ([Op.log ("[" ++ rec.filename ++ "] No work to be done")], none)
    ∧ ((process_file exec rec).1.all (fun op => !(isPopenOp op))) = true := by
  have htrace : process_file exec rec =
      ([Op.log ("[" ++ rec.filename ++ "] No work to be done")], none) := by
    simp [process_file, ha, hs]
  exact ⟨htrace, by rw [htrace]; rfl⟩

/-- Claim C9, witness: the freshly parsed record (default empty keep-args) is
skipped with only the No-work log, whatever the external tool would do. -/
theorem c9_no_work_skips_remux_witness :
    process_file (fun _ => ((0 : Int), "")) recEx =
      ([Op.log ("[a.mkv] No work to be done")], none) := by
  have h := c9_no_work_skips_remux (fun _ => ((0 : Int), "")) recEx rfl rfl
  rw [h.1]
  rfl

/-- Claim C10 (confirmed): for a file that is remuxed, the output path handed
to the remux tool (argument after `-o`) is exactly the original path with
`.temp` appended — hence in the original's directory — and when the remux
succeeds the final operation of the commit renames exactly that `.temp` path
onto the original path. -/
theorem c10_temp_path_and_commit_target (exec : List String → Int × String) (rec : MKVFile)
    (hwork : (rec.audio_args.isEmpty && rec.subtitle_args.isEmpty) = false) :
    (process_file exec rec).1[1]? =
      some (Op.popen ([MKVMERGE, "-o", origPath rec ++ ".temp"]
        ++ rec.audio_args ++ rec.subtitle_args ++ [origPath rec]))
    ∧ ((exec (remuxCmd rec)).1 = 0 →
        (process_file exec rec).1.getLast? =
          some (Op.rename (origPath rec ++ ".temp") (origPath rec))) := by
  by_cases hok : (exec (remuxCmd rec)).1 = 0
  · have htrace : process_file exec rec =
        ([Op.log ("[" ++ rec.filename ++ "] Processing ..."), Op.popen (remuxCmd rec),
          Op.log ("Success"),
          Op.rename (origPath rec) (backupPath rec),
          Op.rename (origPath rec ++ ".temp") (origPath rec)], none) := by
      simp [process_file, hwork, hok]
    rw [htrace]
    exact ⟨rfl, fun _ => rfl⟩
  · have hb : ((exec (remuxCmd rec)).1 != 0) = true := bne_iff_ne.mpr hok
    have htrace : process_file exec rec =
        ([Op.log ("[" ++ rec.filename ++ "] Processing ..."), Op.popen (remuxCmd rec),
          Op.log ("Failed")], some PyErr.exceptionRaised) := by
      simp [process_file, hwork, hb]
    rw [htrace]
    exact ⟨rfl, fun h => absurd h hok⟩

/-- Claim C10, witness: on the concrete worked record with a succeeding remux,
the invocation's output path is `d/a.mkv.temp` and the last operation renames
`d/a.mkv.temp` onto `d/a.mkv`. -/
theorem c10_temp_path_and_commit_target_witness :
    (process_file (fun _ => ((0 : Int), "")) recWorkEx).1[1]? =
      some (Op.popen ([MKVMERGE, "-o", "d/a.mkv.temp", "--audio-tracks", "0", "--default-track",
        "0:1", "--audio-tracks", "0", "--default-track", "0:1", "d/a.mkv"]))
    ∧ (process_file (fun _ => ((0 : Int), "")) recWorkEx).1.getLast? =
      some (Op.rename ("d/a.mkv.temp") ("d/a.mkv")) := by
  have h := c10_temp_path_and_commit_target (fun _ => ((0 : Int), "")) recWorkEx (by decide)
  exact ⟨h.1, h.2 rfl⟩
